import Mathlib

/-!
Verification of the startup/shutdown orchestration and cog (extension)
loading of the CS:GO Asset Manager Bot (src/main.py), as a shallow
embedding.  Observable actions of the orchestrator are modelled as an
inductive event alphabet; setup_hook and close become explicit
step-by-step executions producing a trace, parametrised by oracles that
say which collaborator call raises.  The collaborator services
(database, cache, Steam client, price tracker, the discord host) are
out of scope; only their call sites matter here.
-/

/-- Observable actions performed by main.py, in the order the source can
emit them: the constructor loads the configuration; setup_hook constructs
and connects the database, constructs and connects the cache, constructs
the Steam API client, constructs and starts the price tracker, and calls
load_cogs; close stops the tracker, closes the database, closes the
cache, and calls the inherited discord close. -/
inductive Ev where
  | loadConfig
  | constructDb
  | connectDb
  | constructCache
  | connectCache
  | constructSteam
  | constructTracker
  | startTracker
  | loadCogs
  | stopTracker
  | closeDb
  | closeCache
  | superClose
deriving DecidableEq

/-- Load state of one cog module: loaded, or failed with the text of the
exception caught by the except branch of load_cogs. -/
inductive LoadState where
  | loaded
  | failed (reason : String)
deriving DecidableEq

def isLoaded : LoadState → Bool
  | LoadState.loaded => true
  | LoadState.failed _ => false

/-- The mutable attributes of CSGOAssetBot that the orchestration reads
and writes.  Each service field is the truth value of the Python
attribute being non-None (the handle having been constructed);
trackerArgs records, when the PriceTracker is constructed, whether the
db and cache handles passed to it existed at that moment; cogs and
warned record the outcome of load_cogs. -/
structure BotState where
  db : Bool := false
  cache : Bool := false
  steam : Bool := false
  tracker : Bool := false
  trackerArgs : Option (Bool × Bool) := none
  cogs : List (String × LoadState) := []
  warned : Bool := false
deriving DecidableEq

/-- State right after CSGOAssetBot.__init__: every service attribute is
None. -/
def initialBotState : BotState := {}

/-- State after a fully successful setup_hook: every handle constructed,
tracker given the db and cache handles. -/
def allStartedState : BotState :=
  {db := true, cache := true, steam := true, tracker := true,
   trackerArgs := some (true, true)}

/-- State after a setup in which db and cache were constructed but the
tracker never was (e.g. cache.connect raised after assignment). -/
def dbCacheOnlyState : BotState := {db := true, cache := true}

def underscoreChar : Char := '_'

/-- The load_cogs filter: cog files whose name begins with an underscore
are skipped (cog_file.name.startswith in the source). -/
def isPrivateName (f : String) : Bool := f.toList.head? == some underscoreChar

/-- The body of the for-loop of load_cogs over the candidate file stems:
underscore-prefixed names are skipped with continue; every other name is
loaded inside try/except, so a raising load is recorded as failed and
the loop continues with the next candidate. -/
def loadLoop (loadRes : String → Except String Unit) :
    List String → List (String × LoadState)
  | [] => []
  | f :: rest =>
    if isPrivateName f then loadLoop loadRes rest
    else
      match loadRes f with
      | Except.ok _ => (f, LoadState.loaded) :: loadLoop loadRes rest
      | Except.error e => (f, LoadState.failed e) :: loadLoop loadRes rest

/-- CSGOAssetBot.load_cogs: if the cogs directory is missing it logs a
warning (second component true) and returns with no load attempted;
otherwise it runs the loading loop over the directory contents.  The
result components are the per-cog outcomes the source logs, and whether
the missing-directory warning was logged. -/
def load_cogs (dirExists : Bool) (files : List String)
    (loadRes : String → Except String Unit) :
    List (String × LoadState) × Bool :=
  if dirExists then (loadLoop loadRes files, false) else ([], true)

/-- Environment of setup_hook that is outside the bot object: the cogs
directory and the behaviour of load_extension on each cog name. -/
structure SetupEnv where
  dirExists : Bool
  files : List String
  loadRes : String → Except String Unit

/-- One statement of setup_hook: the observable event, the attribute
update it performs when it completes, and whether it is a call into a
collaborator that can raise. -/
structure SetupStep where
  ev : Ev
  upd : BotState → BotState
  fallible : Bool

def stepFails (fail : Ev → Bool) (st : SetupStep) : Bool :=
  st.fallible && fail st.ev

def stepConstructDb : SetupStep :=
  {ev := Ev.constructDb, upd := fun s => {s with db := true}, fallible := true}

def stepConnectDb : SetupStep :=
  {ev := Ev.connectDb, upd := fun s => s, fallible := true}

def stepConstructCache : SetupStep :=
  {ev := Ev.constructCache, upd := fun s => {s with cache := true}, fallible := true}

def stepConnectCache : SetupStep :=
  {ev := Ev.connectCache, upd := fun s => s, fallible := true}

def stepConstructSteam : SetupStep :=
  {ev := Ev.constructSteam, upd := fun s => {s with steam := true}, fallible := true}

def stepConstructTracker : SetupStep :=
  {ev := Ev.constructTracker,
   upd := fun s => {s with tracker := true, trackerArgs := some (s.db, s.cache)},
   fallible := true}

def stepStartTracker : SetupStep :=
  {ev := Ev.startTracker, upd := fun s => s, fallible := true}

def stepLoadCogs (env : SetupEnv) : SetupStep :=
  {ev := Ev.loadCogs,
   upd := fun s =>
     let r := load_cogs env.dirExists env.files env.loadRes
     {s with cogs := r.1, warned := r.2},
   fallible := false}

/-- The body of setup_hook as the ordered list of its statements.  The
load_cogs step is not fallible: every raising call inside it is wrapped
by its own try/except. -/
def setupSteps (env : SetupEnv) : List SetupStep :=
  [stepConstructDb, stepConnectDb, stepConstructCache, stepConnectCache,
   stepConstructSteam, stepConstructTracker, stepStartTracker,
   stepLoadCogs env]

/-- Sequential execution of setup statements: each attempted statement
contributes its event to the trace; a raising statement stops execution
at once, leaving the state as it was before that statement and returning
ok = false. -/
def runSteps (fail : Ev → Bool) :
    List SetupStep → BotState → BotState × List Ev × Bool
  | [], s => (s, [], true)
  | stp :: rest, s =>
    if stepFails fail stp then (s, [stp.ev], false)
    else
      let r := runSteps fail rest (stp.upd s)
      (r.1, stp.ev :: r.2.1, r.2.2)

def applyUpds (steps : List SetupStep) (s : BotState) : BotState :=
  steps.foldl (fun acc stp => stp.upd acc) s

/-- Result of setup_hook (or of the whole startup): final attribute
state, trace of attempted actions, whether the except branch logged the
setup error, and whether the exception was re-raised to the caller. -/
structure SetupResult where
  state : BotState
  trace : List Ev
  errorLogged : Bool
  raised : Bool
deriving DecidableEq

/-- CSGOAssetBot.setup_hook: runs the statements in order inside one
try/except that, on any raise, logs the error and re-raises. -/
def setup_hook (env : SetupEnv) (fail : Ev → Bool) (s : BotState) :
    SetupResult :=
  let r := runSteps fail (setupSteps env) s
  {state := r.1, trace := r.2.1, errorLogged := !r.2.2, raised := !r.2.2}

/-- Startup as seen from main: CSGOAssetBot.__init__ loads the
configuration (a raise there prevents everything after), then
setup_hook runs from the all-None attribute state. -/
def startup (env : SetupEnv) (fail : Ev → Bool) : SetupResult :=
  if fail Ev.loadConfig then
    {state := initialBotState, trace := [Ev.loadConfig],
     errorLogged := false, raised := true}
  else
    let r := setup_hook env fail initialBotState
    {state := r.state, trace := Ev.loadConfig :: r.trace,
     errorLogged := r.errorLogged, raised := r.raised}

/-- The action trace of a fully successful startup. -/
def startupTraceAll : List Ev :=
  [Ev.loadConfig, Ev.constructDb, Ev.connectDb, Ev.constructCache,
   Ev.connectCache, Ev.constructSteam, Ev.constructTracker,
   Ev.startTracker, Ev.loadCogs]

/-- The cleanup calls CSGOAssetBot.close makes, in source order: stop
the price tracker if the attribute is non-None, close the database if
non-None, close the cache if non-None, then always call the inherited
close.  None of the attributes is cleared. -/
def closeActions (s : BotState) : List Ev :=
  (if s.tracker then [Ev.stopTracker] else []) ++
  (if s.db then [Ev.closeDb] else []) ++
  (if s.cache then [Ev.closeCache] else []) ++
  [Ev.superClose]

/-- Sequential execution of the cleanup calls: close has no try/except,
so the first raising call aborts the method and the exception propagates
(ok = false). -/
def runClose (fail : Ev → Bool) : List Ev → List Ev × Bool
  | [] => ([], true)
  | e :: rest =>
    if fail e then ([e], false)
    else
      let r := runClose fail rest
      (e :: r.1, r.2)

/-- CSGOAssetBot.close on a given attribute state. -/
def close (fail : Ev → Bool) (s : BotState) : List Ev × Bool :=
  runClose fail (closeActions s)

/-- closeActions as a function of the three handle flags alone. -/
def closeActionsB (tracker db cache : Bool) : List Ev :=
  (if tracker then [Ev.stopTracker] else []) ++
  (if db then [Ev.closeDb] else []) ++
  (if cache then [Ev.closeCache] else []) ++
  [Ev.superClose]

/-- Index of the first occurrence of an event in a trace (length of the
trace when absent). -/
def idxOf (e : Ev) : List Ev → Nat
  | [] => 0
  | x :: xs => if x = e then 0 else idxOf e xs + 1

def tokenName : String := "DISCORD_TOKEN"

def steamName : String := "STEAM_API_KEY"

def dbName : String := "DATABASE_URL"

def redisName : String := "REDIS_URL"

/-- check_requirements: the list of required environment variable
names, in source order. -/
def requiredVars : List String := [tokenName, steamName, dbName, redisName]

/-- Python truthiness test of os.getenv: the variable is missing when it
is absent (None) or set to the empty string. -/
def falsy : Option String → Bool
  | none => true
  | some s => s.isEmpty

/-- The missing_vars list comprehension of check_requirements. -/
def missingVars (env : String → Option String) : List String :=
  requiredVars.filter (fun v => falsy (env v))

/-- check_requirements: some missing list means the error diagnostic was
logged with every missing name and sys.exit(1) was called; none means it
returned with no effect. -/
def check_requirements (env : String → Option String) : Option (List String) :=
  let m := missingVars env
  if m.isEmpty then none else some m

/-- Outcome of main: either the process exited with a code and a
diagnostic naming the missing variables, or the bot was constructed and
started. -/
inductive MainOutcome where
  | exited (code : Nat) (diag : List String)
  | ran (r : SetupResult)
deriving DecidableEq

/-- main: check_requirements runs first; only when it does not exit is
CSGOAssetBot constructed and started. -/
def mainModel (env : String → Option String) (senv : SetupEnv)
    (fail : Ev → Bool) : MainOutcome :=
  match check_requirements env with
  | some m => MainOutcome.exited 1 m
  | none => MainOutcome.ran (startup senv fail)

/-- The service-construction and service-call events a run of main
performs: none at all when the preflight exits. -/
def mainEvents (env : String → Option String) (senv : SetupEnv)
    (fail : Ev → Bool) : List Ev :=
  match mainModel env senv fail with
  | MainOutcome.exited _ _ => []
  | MainOutcome.ran r => r.trace

/-- Oracle under which no collaborator call raises. -/
def noFail : Ev → Bool := fun _ => false

def failConnectCache : Ev → Bool := fun e => e == Ev.connectCache

def failStopTracker : Ev → Bool := fun e => e == Ev.stopTracker

def failCloseDb : Ev → Bool := fun e => e == Ev.closeDb

/-- A concrete benign setup environment. -/
def envOkC : SetupEnv :=
  {dirExists := true, files := [], loadRes := fun _ => Except.ok ()}

def nameA : String := "assets"

/-- A concrete setup environment whose cogs directory is missing. -/
def envNoDirC : SetupEnv :=
  {dirExists := false, files := [nameA], loadRes := fun _ => Except.ok ()}

def someVal : String := "x"

/-- Concrete environment with two of the four required variables unset
(the Steam key and the Redis URL). -/
def envMissing2 : String → Option String := fun v =>
  if v == tokenName || v == dbName then some someVal else none

def msgBoom : String := "boom"

def files5 : List String := ["alpha", "beta", "gamma", "delta", "eps"]

def badB : String := "beta"

def badD : String := "delta"

/-- Load behaviour where exactly beta and delta raise. -/
def loadRes5 : String → Except String Unit := fun f =>
  if f == badB || f == badD then Except.error msgBoom else Except.ok ()

def alphaName : String := "alpha"

def preW : List String := ["aone"]

def postW : List String := ["btwo"]

def fBad : String := "bad"

/-- Load behaviour where exactly the module named by fBad raises. -/
def loadResW : String → Except String Unit := fun g =>
  if g == fBad then Except.error msgBoom else Except.ok ()

/-- The events of the eight setup_hook statements, in source order. -/
def setupEvList : List Ev :=
  [Ev.constructDb, Ev.connectDb, Ev.constructCache, Ev.connectCache,
   Ev.constructSteam, Ev.constructTracker, Ev.startTracker, Ev.loadCogs]

/-- The three setup statements preceding the cache connect. -/
def pre4 : List SetupStep := [stepConstructDb, stepConnectDb, stepConstructCache]

/-- The setup statements following the cache connect. -/
def post4 (env : SetupEnv) : List SetupStep :=
  [stepConstructSteam, stepConstructTracker, stepStartTracker, stepLoadCogs env]

theorem runClose_trace_eq (fail : Ev → Bool) (l : List Ev) :
    (runClose fail l).1 =
      l.takeWhile (fun e => !fail e) ++ (l.dropWhile (fun e => !fail e)).take 1 := by
  induction l with
  | nil => simp [runClose]
  | cons e rest ih =>
    cases h : fail e
    · simp [runClose, h, List.takeWhile_cons, List.dropWhile_cons, ih]
    · simp [runClose, h, List.takeWhile_cons, List.dropWhile_cons]

theorem runClose_ok_eq (fail : Ev → Bool) (l : List Ev) :
    (runClose fail l).2 = l.all (fun e => !fail e) := by
  induction l with
  | nil => simp [runClose]
  | cons e rest ih =>
    cases h : fail e
    · simp [runClose, h, ih]
    · simp [runClose, h]

theorem runClose_noFail_eq (l : List Ev) : runClose noFail l = (l, true) := by
  induction l with
  | nil => rfl
  | cons e rest ih => simp [runClose, noFail, ih]

theorem close_noFail_trace (s : BotState) : (close noFail s).1 = closeActions s := by
  simp [close, runClose_noFail_eq]

theorem closeActions_eqB (s : BotState) :
    closeActions s = closeActionsB s.tracker s.db s.cache := rfl

theorem closeActionsB_count_le_one (tracker db cache : Bool) (e : Ev) :
    (closeActionsB tracker db cache).count e ≤ 1 := by
  cases tracker <;> cases db <;> cases cache <;> cases e <;> decide

theorem closeActions_count_le_one (s : BotState) (e : Ev) :
    (closeActions s).count e ≤ 1 := by
  rw [closeActions_eqB]
  exact closeActionsB_count_le_one s.tracker s.db s.cache e

theorem takeWhile_take_sublist {α : Type} (p : α → Bool) (l : List α) :
    (l.takeWhile p ++ (l.dropWhile p).take 1).Sublist l := by
  have h := List.Sublist.append_left (List.take_sublist 1 (l.dropWhile p)) (l.takeWhile p)
  rwa [List.takeWhile_append_dropWhile] at h

theorem close_trace_sublist (fail : Ev → Bool) (s : BotState) :
    ((close fail s).1).Sublist (closeActions s) := by
  rw [close, runClose_trace_eq]
  exact takeWhile_take_sublist (fun e => !fail e) (closeActions s)

theorem close_count_le_one (fail : Ev → Bool) (s : BotState) (e : Ev) :
    ((close fail s).1).count e ≤ 1 :=
  le_trans (List.Sublist.count_le (close_trace_sublist fail s) e)
    (closeActions_count_le_one s e)

theorem runSteps_ok (fail : Ev → Bool) (steps : List SetupStep) :
    ∀ s : BotState, (runSteps fail steps s).2.2 = true →
      (runSteps fail steps s).2.1 = steps.map SetupStep.ev ∧
      (runSteps fail steps s).1 = applyUpds steps s := by
  induction steps with
  | nil => intro s _; simp [runSteps, applyUpds]
  | cons stp rest ih =>
    intro s h
    cases hf : stepFails fail stp
    · simp only [runSteps, hf, Bool.false_eq_true, if_false] at h ⊢
      obtain ⟨h1, h2⟩ := ih (stp.upd s) h
      refine ⟨by simp [h1], ?_⟩
      simp [applyUpds] at h2 ⊢
      exact h2
    · simp [runSteps, hf] at h

theorem runSteps_all_ok (fail : Ev → Bool) (steps : List SetupStep) :
    ∀ s : BotState, (∀ p ∈ steps, stepFails fail p = false) →
      runSteps fail steps s = (applyUpds steps s, steps.map SetupStep.ev, true) := by
  induction steps with
  | nil => intro s _; simp [runSteps, applyUpds]
  | cons stp rest ih =>
    intro s h
    have h0 : stepFails fail stp = false := h stp (by simp)
    have hr := ih (stp.upd s) (fun p hp => h p (by simp [hp]))
    simp [runSteps, h0, hr, applyUpds]

theorem runSteps_fail_at (fail : Ev → Bool) (pre : List SetupStep) :
    ∀ (st : SetupStep) (post : List SetupStep) (s : BotState),
      (∀ p ∈ pre, stepFails fail p = false) → stepFails fail st = true →
      runSteps fail (pre ++ st :: post) s =
        (applyUpds pre s, pre.map SetupStep.ev ++ [st.ev], false) := by
  induction pre with
  | nil => intro st post s _ hst; simp [runSteps, hst, applyUpds]
  | cons p ps ih =>
    intro st post s h hst
    have h0 : stepFails fail p = false := h p (by simp)
    have hr := ih st post (p.upd s) (fun q hq => h q (by simp [hq])) hst
    simp [runSteps, h0, hr, applyUpds]

theorem setupSteps_evs (env : SetupEnv) :
    (setupSteps env).map SetupStep.ev = setupEvList := rfl

theorem setupEvList_count_le_one (e : Ev) : setupEvList.count e ≤ 1 := by
  cases e <;> decide

theorem loadLoop_fst (loadRes : String → Except String Unit) (files : List String) :
    (loadLoop loadRes files).map Prod.fst = files.filter (fun f => !isPrivateName f) := by
  induction files with
  | nil => simp [loadLoop]
  | cons f fs ih =>
    cases hp : isPrivateName f
    · cases hr : loadRes f <;> simp [loadLoop, hp, hr, List.filter_cons, ih]
    · simp [loadLoop, hp, List.filter_cons, ih]

theorem loadLoop_states (loadRes : String → Except String Unit) (files : List String) :
    ∀ d ∈ loadLoop loadRes files,
      d.2 = LoadState.loaded ∨ ∃ r, d.2 = LoadState.failed r := by
  induction files with
  | nil => intro d hd; simp [loadLoop] at hd
  | cons f fs ih =>
    intro d hd
    cases hp : isPrivateName f
    · cases hr : loadRes f with
      | ok u =>
        simp [loadLoop, hp, hr] at hd
        rcases hd with rfl | hd
        · exact Or.inl rfl
        · exact ih d hd
      | error e =>
        simp [loadLoop, hp, hr] at hd
        rcases hd with rfl | hd
        · exact Or.inr ⟨e, rfl⟩
        · exact ih d hd
    · simp [loadLoop, hp] at hd
      exact ih d hd

theorem stopTracker_mem_closeActionsB (tracker db cache : Bool) :
    Ev.stopTracker ∈ closeActionsB tracker db cache ↔ tracker = true := by
  cases tracker <;> cases db <;> cases cache <;> decide

theorem closeDb_mem_closeActionsB (tracker db cache : Bool) :
    Ev.closeDb ∈ closeActionsB tracker db cache ↔ db = true := by
  cases tracker <;> cases db <;> cases cache <;> decide

theorem closeCache_mem_closeActionsB (tracker db cache : Bool) :
    Ev.closeCache ∈ closeActionsB tracker db cache ↔ cache = true := by
  cases tracker <;> cases db <;> cases cache <;> decide

theorem superClose_mem_closeActionsB (tracker db cache : Bool) :
    Ev.superClose ∈ closeActionsB tracker db cache := by
  cases tracker <;> cases db <;> cases cache <;> decide

theorem closeActionsB_all_started (tracker db cache : Bool)
    (ht : tracker = true) (hd : db = true) (hc : cache = true) :
    closeActionsB tracker db cache =
      [Ev.stopTracker, Ev.closeDb, Ev.closeCache, Ev.superClose] := by
  rw [ht, hd, hc]; rfl

/-- C1, amended: on a shutdown in which all services started and no
cleanup raises, the cleanup calls run in the order: price tracker stop,
then DATABASE close, then CACHE close, then the inherited close.  The
database and cache are thus closed in startup order, not in reverse
order of startup as the claim states. -/
theorem C1_close_order_amended (s : BotState) (ht : s.tracker = true)
    (hd : s.db = true) (hc : s.cache = true) :
    (close noFail s).1 =
      [Ev.stopTracker, Ev.closeDb, Ev.closeCache, Ev.superClose] := by
  rw [close_noFail_trace, closeActions_eqB]
  exact closeActionsB_all_started s.tracker s.db s.cache ht hd hc

/-- C1 witness: the amended order theorem applied to the state in which
every service started. -/
theorem C1_witness :
    allStartedState.tracker = true ∧ allStartedState.db = true ∧
    allStartedState.cache = true ∧
    (close noFail allStartedState).1 =
      [Ev.stopTracker, Ev.closeDb, Ev.closeCache, Ev.superClose] :=
  ⟨rfl, rfl, rfl, C1_close_order_amended allStartedState rfl rfl rfl⟩

/-- C1 counterexample: with every service started, the shutdown trace
closes the database strictly before the cache, refuting the claimed
order (task stop, then cache close, then storage close). -/
theorem C1_counterexample :
    (close noFail allStartedState).1 =
      [Ev.stopTracker, Ev.closeDb, Ev.closeCache, Ev.superClose] ∧
    ¬ (idxOf Ev.closeCache (close noFail allStartedState).1 <
        idxOf Ev.closeDb (close noFail allStartedState).1) := by
  refine ⟨by decide, by decide⟩

/-- C2, amended: close is fail-fast, not best-effort.  The attempted
cleanups are exactly the maximal prefix of succeeding cleanup calls plus
the first raising one; close returns normally exactly when no cleanup
call raises; and every cleanup call is attempted at most once. -/
theorem C2_close_failfast (s : BotState) (fail : Ev → Bool) :
    (close fail s).1 =
      (closeActions s).takeWhile (fun e => !fail e) ++
        ((closeActions s).dropWhile (fun e => !fail e)).take 1 ∧
    (close fail s).2 = (closeActions s).all (fun e => !fail e) ∧
    ∀ e : Ev, ((close fail s).1).count e ≤ 1 :=
  ⟨runClose_trace_eq fail (closeActions s), runClose_ok_eq fail (closeActions s),
   fun e => close_count_le_one fail s e⟩

/-- C2 counterexample: all services started and the tracker stop raises;
the database close is never attempted even though the database started,
and close propagates the exception, refuting per-cleanup isolation. -/
theorem C2_counterexample :
    allStartedState.db = true ∧
    (close failStopTracker allStartedState).1 = [Ev.stopTracker] ∧
    (close failStopTracker allStartedState).2 = false ∧
    Ev.closeDb ∉ (close failStopTracker allStartedState).1 := by
  refine ⟨rfl, by decide, by decide, by decide⟩

/-- C3, amended: when no service ever started, close performs no service
cleanup at all (only the inherited close runs) and raises nothing, so
that part of the claim holds.  But close never clears the service
attributes, so a second call on a started state repeats every service
cleanup: two consecutive calls invoke each cleanup twice, not at most
once. -/
theorem C3_shutdown_amended (fail : Ev → Bool) :
    (close fail initialBotState).1 = [Ev.superClose] ∧
    (close noFail initialBotState).2 = true ∧
    ((close noFail allStartedState).1 ++
        (close noFail allStartedState).1).count Ev.stopTracker = 2 ∧
    ((close noFail allStartedState).1 ++
        (close noFail allStartedState).1).count Ev.closeDb = 2 ∧
    ((close noFail allStartedState).1 ++
        (close noFail allStartedState).1).count Ev.closeCache = 2 := by
  have hact : closeActions initialBotState = [Ev.superClose] := rfl
  refine ⟨?_, by decide, by decide, by decide, by decide⟩
  rw [close, hact]
  cases h : fail Ev.superClose <;> simp [runClose, h]

/-- C3 counterexample: two consecutive shutdown calls on the
all-started state invoke the tracker stop twice, refuting that no
cleanup action is invoked more than once overall. -/
theorem C3_counterexample :
    ¬ (((close noFail allStartedState).1 ++
        (close noFail allStartedState).1).count Ev.stopTracker ≤ 1) := by
  decide

/-- C9, amended: on a shutdown in which no cleanup raises, each cleanup
call is attempted exactly when the corresponding handle attribute is
non-None, regardless of whether the connect or start step succeeded, and
the inherited close always runs; concretely, after a startup in which
cache.connect raised, the cache handle exists and is still closed.  (The
unrestricted claim fails when an earlier cleanup raises: see the
counterexample.) -/
theorem C9_cleanup_matches_construction (s : BotState) :
    (Ev.stopTracker ∈ (close noFail s).1 ↔ s.tracker = true) ∧
    (Ev.closeDb ∈ (close noFail s).1 ↔ s.db = true) ∧
    (Ev.closeCache ∈ (close noFail s).1 ↔ s.cache = true) ∧
    Ev.superClose ∈ (close noFail s).1 ∧
    (startup envOkC failConnectCache).state.cache = true ∧
    Ev.closeCache ∈ (close noFail (startup envOkC failConnectCache).state).1 := by
  rw [close_noFail_trace, closeActions_eqB]
  exact ⟨stopTracker_mem_closeActionsB s.tracker s.db s.cache,
    closeDb_mem_closeActionsB s.tracker s.db s.cache,
    closeCache_mem_closeActionsB s.tracker s.db s.cache,
    superClose_mem_closeActionsB s.tracker s.db s.cache,
    by decide, by decide⟩

/-- C9 counterexample: db and cache constructed, tracker not; the db
close raises, so the cache close and the inherited close are never
attempted even though the cache handle exists, refuting the claim for
every run of shutdown. -/
theorem C9_counterexample :
    dbCacheOnlyState.cache = true ∧
    (close failCloseDb dbCacheOnlyState).1 = [Ev.closeDb] ∧
    Ev.closeCache ∉ (close failCloseDb dbCacheOnlyState).1 ∧
    Ev.superClose ∉ (close failCloseDb dbCacheOnlyState).1 := by
  refine ⟨rfl, by decide, by decide, by decide⟩

/-- C4: if the setup statement at some position raises while every
earlier statement succeeded, then the trace of setup_hook is exactly the
earlier statements followed by the failing one (statements after it are
never attempted), the except branch logs the failure, the exception is
re-raised to the caller, and no statement is attempted more than
once. -/
theorem C4_startup_failfast (env : SetupEnv) (fail : Ev → Bool)
    (pre : List SetupStep) (st : SetupStep) (post : List SetupStep)
    (s : BotState) (hsplit : setupSteps env = pre ++ st :: post)
    (hpre : ∀ p ∈ pre, stepFails fail p = false)
    (hst : stepFails fail st = true) :
    (setup_hook env fail s).trace = pre.map SetupStep.ev ++ [st.ev] ∧
    (setup_hook env fail s).raised = true ∧
    (setup_hook env fail s).errorLogged = true ∧
    ∀ e : Ev, ((setup_hook env fail s).trace).count e ≤ 1 := by
  have hrun := runSteps_fail_at fail pre st post s hpre hst
  have htr : (setup_hook env fail s).trace = pre.map SetupStep.ev ++ [st.ev] := by
    simp [setup_hook, hsplit, hrun]
  refine ⟨htr, by simp [setup_hook, hsplit, hrun], by simp [setup_hook, hsplit, hrun], ?_⟩
  intro e
  rw [htr]
  have hsub : (pre.map SetupStep.ev ++ [st.ev]).Sublist ((setupSteps env).map SetupStep.ev) := by
    rw [hsplit]
    have h1 : (pre ++ [st]).Sublist (pre ++ st :: post) :=
      List.Sublist.append_left (List.Sublist.cons₂ st (List.nil_sublist post)) pre
    have h2 := List.Sublist.map SetupStep.ev h1
    rw [List.map_append] at h2
    exact h2
  calc (pre.map SetupStep.ev ++ [st.ev]).count e
      ≤ ((setupSteps env).map SetupStep.ev).count e := List.Sublist.count_le hsub e
    _ ≤ 1 := by rw [setupSteps_evs]; exact setupEvList_count_le_one e

/-- C4 witness: the failure injected at the cache connect, position
four of the setup sequence; the three earlier statements succeed, the
trace stops at the cache connect, and the error is logged and
re-raised. -/
theorem C4_witness :
    setupSteps envOkC = pre4 ++ stepConnectCache :: post4 envOkC ∧
    (∀ p ∈ pre4, stepFails failConnectCache p = false) ∧
    stepFails failConnectCache stepConnectCache = true ∧
    ((setup_hook envOkC failConnectCache initialBotState).trace =
        pre4.map SetupStep.ev ++ [stepConnectCache.ev] ∧
      (setup_hook envOkC failConnectCache initialBotState).raised = true ∧
      (setup_hook envOkC failConnectCache initialBotState).errorLogged = true ∧
      ∀ e : Ev, ((setup_hook envOkC failConnectCache initialBotState).trace).count e ≤ 1) :=
  ⟨rfl, by decide, by decide,
   C4_startup_failfast envOkC failConnectCache pre4 stepConnectCache (post4 envOkC)
     initialBotState rfl (by decide) (by decide)⟩

/-- C5: on every startup that completes without raising, the trace is
exactly: load configuration, construct db, connect db, construct cache,
connect cache, construct Steam client, construct tracker, start tracker,
load cogs — in that order, each completing before the next starts — and
the tracker was constructed with both the db and cache handles already
present. -/
theorem C5_startup_order (env : SetupEnv) (fail : Ev → Bool)
    (h : (startup env fail).raised = false) :
    (startup env fail).trace = startupTraceAll ∧
    (startup env fail).state.trackerArgs = some (true, true) := by
  cases hc : fail Ev.loadConfig
  · have hraised : (startup env fail).raised =
        (!(runSteps fail (setupSteps env) initialBotState).2.2) := by
      simp [startup, hc, setup_hook]
    rw [hraised] at h
    have hok : (runSteps fail (setupSteps env) initialBotState).2.2 = true := by
      simpa using h
    obtain ⟨h1, h2⟩ := runSteps_ok fail (setupSteps env) initialBotState hok
    have htr : (startup env fail).trace =
        Ev.loadConfig :: (runSteps fail (setupSteps env) initialBotState).2.1 := by
      simp [startup, hc, setup_hook]
    have hstate : (startup env fail).state =
        (runSteps fail (setupSteps env) initialBotState).1 := by
      simp [startup, hc, setup_hook]
    refine ⟨?_, ?_⟩
    · rw [htr, h1, setupSteps_evs]; rfl
    · rw [hstate, h2]; rfl
  · have hx : (startup env fail).raised = true := by simp [startup, hc]
    rw [hx] at h
    exact absurd h (by decide)

/-- C5 witness: a concrete fully successful startup. -/
theorem C5_witness :
    (startup envOkC noFail).raised = false ∧
    ((startup envOkC noFail).trace = startupTraceAll ∧
      (startup envOkC noFail).state.trackerArgs = some (true, true)) :=
  ⟨rfl, C5_startup_order envOkC noFail rfl⟩

/-- C6: the preflight outcome of main.  When any of the four required
variables is absent or empty, main exits with code 1 and a diagnostic
that is exactly the list of all missing names, and performs no
construction or service event at all; when all four are present and
non-empty, main proceeds to the ordinary startup, the preflight having
had no other effect.  The final conjunct characterises the diagnostic:
a name is listed exactly when it is required and its value is absent or
empty. -/
theorem C6_preflight (env : String → Option String) (senv : SetupEnv)
    (fail : Ev → Bool) :
    mainModel env senv fail =
      (if (missingVars env).isEmpty then MainOutcome.ran (startup senv fail)
       else MainOutcome.exited 1 (missingVars env)) ∧
    mainEvents env senv fail =
      (if (missingVars env).isEmpty then (startup senv fail).trace else []) ∧
    ∀ v : String, v ∈ missingVars env ↔ v ∈ requiredVars ∧ falsy (env v) = true := by
  refine ⟨?_, ?_, ?_⟩
  · cases h : (missingVars env).isEmpty <;>
      simp [mainModel, check_requirements, h]
  · cases h : (missingVars env).isEmpty <;>
      simp [mainEvents, mainModel, check_requirements, h]
  · intro v
    simp [missingVars, List.mem_filter]

/-- C6 witness: an environment with two of the four variables missing;
main exits with code 1, the diagnostic names both missing variables, and
no service event occurs. -/
theorem C6_witness :
    missingVars envMissing2 = [steamName, redisName] ∧
    mainModel envMissing2 envOkC noFail =
      MainOutcome.exited 1 [steamName, redisName] ∧
    mainEvents envMissing2 envOkC noFail = [] := by
  have h := C6_preflight envMissing2 envOkC noFail
  refine ⟨by decide, ?_, ?_⟩
  · rw [h.1]; decide
  · rw [h.2.1]; decide

/-- C7: a candidate whose load raises is recorded as failed and loading
continues with the following candidates exactly as if the failure had
not happened; the loop never propagates the failure. -/
theorem C7_load_isolated (loadRes : String → Except String Unit)
    (pre : List String) (f : String) (post : List String) (e : String)
    (hf : loadRes f = Except.error e) (hu : isPrivateName f = false) :
    loadLoop loadRes (pre ++ f :: post) =
      loadLoop loadRes pre ++ (f, LoadState.failed e) :: loadLoop loadRes post := by
  induction pre with
  | nil => simp [loadLoop, hu, hf]
  | cons p ps ih =>
    cases hp : isPrivateName p
    · cases hr : loadRes p <;> simp [loadLoop, hp, hr, ih]
    · simp [loadLoop, hp, ih]

/-- C7 witness: a concrete batch with one raising candidate in the
middle; the failing candidate is recorded as failed and the later
candidate is still processed. -/
theorem C7_witness :
    loadResW fBad = Except.error msgBoom ∧
    isPrivateName fBad = false ∧
    loadLoop loadResW (preW ++ fBad :: postW) =
      loadLoop loadResW preW ++ (fBad, LoadState.failed msgBoom) ::
        loadLoop loadResW postW :=
  ⟨rfl, by decide, C7_load_isolated loadResW preW fBad postW msgBoom rfl (by decide)⟩

/-- C8: the loading loop returns one descriptor per candidate, in order
(its name list is exactly the candidates surviving the underscore
filter), and every descriptor is either loaded or failed with a
reason. -/
theorem C8_loader_coverage (files : List String)
    (loadRes : String → Except String Unit) :
    (loadLoop loadRes files).map Prod.fst =
      files.filter (fun f => !isPrivateName f) ∧
    ∀ d ∈ loadLoop loadRes files,
      d.2 = LoadState.loaded ∨ ∃ r, d.2 = LoadState.failed r :=
  ⟨loadLoop_fst loadRes files, loadLoop_states loadRes files⟩

/-- C8 witness: five candidates of which two raise produce five
descriptors, three loaded and two failed, covering every candidate. -/
theorem C8_witness :
    ((loadLoop loadRes5 files5).map Prod.fst =
      files5.filter (fun f => !isPrivateName f)) ∧
    (loadLoop loadRes5 files5).length = 5 ∧
    ((loadLoop loadRes5 files5).filter (fun d => isLoaded d.2)).length = 3 ∧
    ((loadLoop loadRes5 files5).filter (fun d => !isLoaded d.2)).length = 2 ∧
    ((alphaName, LoadState.loaded).2 = LoadState.loaded ∨
      ∃ r, (alphaName, LoadState.loaded).2 = LoadState.failed r) :=
  ⟨(C8_loader_coverage files5 loadRes5).1, by decide, by decide, by decide,
   (C8_loader_coverage files5 loadRes5).2 (alphaName, LoadState.loaded) (by decide)⟩

/-- C10: when the cogs directory does not exist, load_cogs logs the
warning, attempts no load and returns normally; and a startup whose
collaborator calls all succeed still completes without raising, with the
full trace, the warning recorded and no cog loaded. -/
theorem C10_missing_dir (senv : SetupEnv) (fail : Ev → Bool)
    (hdir : senv.dirExists = false) (hf : ∀ e, fail e = false) :
    load_cogs senv.dirExists senv.files senv.loadRes = ([], true) ∧
    (startup senv fail).raised = false ∧
    (startup senv fail).trace = startupTraceAll ∧
    (startup senv fail).state.warned = true ∧
    (startup senv fail).state.cogs = [] := by
  have hlc : load_cogs senv.dirExists senv.files senv.loadRes = ([], true) := by
    rw [hdir]; rfl
  have hall : ∀ p ∈ setupSteps senv, stepFails fail p = false := by
    intro p hp; simp [stepFails, hf]
  have hrun := runSteps_all_ok fail (setupSteps senv) initialBotState hall
  have hcfg : fail Ev.loadConfig = false := hf Ev.loadConfig
  have htr : (startup senv fail).trace =
      Ev.loadConfig :: (runSteps fail (setupSteps senv) initialBotState).2.1 := by
    simp [startup, hcfg, setup_hook]
  have hraised : (startup senv fail).raised =
      (!(runSteps fail (setupSteps senv) initialBotState).2.2) := by
    simp [startup, hcfg, setup_hook]
  have hstate : (startup senv fail).state =
      (runSteps fail (setupSteps senv) initialBotState).1 := by
    simp [startup, hcfg, setup_hook]
  have hwarn : (applyUpds (setupSteps senv) initialBotState).warned =
      (load_cogs senv.dirExists senv.files senv.loadRes).2 := rfl
  have hcogs : (applyUpds (setupSteps senv) initialBotState).cogs =
      (load_cogs senv.dirExists senv.files senv.loadRes).1 := rfl
  refine ⟨hlc, ?_, ?_, ?_, ?_⟩
  · rw [hraised, hrun]
    rfl
  · rw [htr, hrun]
    rfl
  · rw [hstate, hrun, hwarn, hlc]
  · rw [hstate, hrun, hcogs, hlc]

/-- C10 witness: the concrete missing-directory environment with no
collaborator failure. -/
theorem C10_witness :
    envNoDirC.dirExists = false ∧
    (load_cogs envNoDirC.dirExists envNoDirC.files envNoDirC.loadRes = ([], true) ∧
      (startup envNoDirC noFail).raised = false ∧
      (startup envNoDirC noFail).trace = startupTraceAll ∧
      (startup envNoDirC noFail).state.warned = true ∧
      (startup envNoDirC noFail).state.cogs = []) :=
  ⟨rfl, C10_missing_dir envNoDirC noFail rfl (fun _ => rfl)⟩
